import Mathlib

set_option linter.unusedVariables false

/-
Verification of the streamlit-cadcad market dashboard (src/main.py).

The script fetches Compound-v2 market rows from a GraphQL endpoint, coerces
five columns to numbers, feeds the table to the cadCAD engine as system
parameters, and runs one field-copy policy per input row.  The embedding
below translates the data wrangling, the model functions (`p_rates`,
`s_lender_APY`, `s_borrower_APY`, `s_utilization_rate`, `s_exchange_rate`),
the configuration, and the chart loop into Lean.  Machine floats are
modelled as exact rationals; Python exceptions become `Except`.

The cadCAD engine itself is an external dependency of the script.  Its
stepping discipline (one partial-state-update pass per element of the
configured `T` range, the engine-maintained `timestep` field starting at 0
on the initial state and incremented each pass, single-element parameter
sweep lists unwrapped before being handed to the model functions) is
reproduced in `step`, `runFrom` and `runSim` below, following the engine's
documented semantics; everything inside a step is translated from
src/main.py.
-/

namespace Cadcad

/-- A raw field value as it arrives from the GraphQL response: either a
string that parses as the number `q`, or non-numeric text `s`.  This
abstracts the decimal syntax while keeping the success/failure split of
`pd.to_numeric`. -/
inductive RawVal
  | numStr (q : ℚ)
  | nonNum (s : String)
deriving DecidableEq

/-- Coercion `pd.to_numeric` on a single value with the default
`errors='raise'`: parses a numeric string, raises on anything else. -/
def to_numeric : RawVal → Except String ℚ
  | .numStr q => .ok q
  | .nonNum s => .error ("Unable to parse string " ++ s)

/-- Whether `pd.to_numeric` succeeds on the value. -/
def RawVal.isNum : RawVal → Bool
  | .numStr _ => true
  | .nonNum _ => false

/-- The numeric reading of a raw value (0 on non-numeric text, which only
occurs where `to_numeric` raises). -/
def RawVal.val : RawVal → ℚ
  | .numStr q => q
  | .nonNum _ => 0

/-- One market object of the GraphQL response (`markets` list), with the
five queried fields. -/
structure RawRow where
  borrowRate : RawVal
  supplyRate : RawVal
  totalBorrows : RawVal
  totalSupply : RawVal
  exchangeRate : RawVal
deriving DecidableEq

/-- One row of the wrangled dataframe `df`: the five numeric columns plus
the `index` column added by `reset_index()`. -/
structure Row where
  index : ℕ
  borrowRate : ℚ
  supplyRate : ℚ
  totalBorrows : ℚ
  totalSupply : ℚ
  exchangeRate : ℚ
deriving DecidableEq, Inhabited

/-- Coercion `pd.to_numeric(df.c)` of one column `get`: convert the column
top to bottom, raising at the first non-numeric value. -/
def coerceColumn (get : RawRow → RawVal) : List RawRow → Except String (List ℚ)
  | [] => .ok []
  | r :: rs =>
    match to_numeric (get r) with
    | .error e => .error e
    | .ok q =>
      match coerceColumn get rs with
      | .error e => .error e
      | .ok qs => .ok (q :: qs)

/-- Zip the five coerced columns back into rows, attaching the
`reset_index()` position `i`. -/
def buildRows : ℕ → List ℚ → List ℚ → List ℚ → List ℚ → List ℚ → List Row
  | i, tb :: tbs, ts :: tss, br :: brs, sr :: srs, er :: ers =>
      { index := i, totalBorrows := tb, totalSupply := ts, borrowRate := br,
        supplyRate := sr, exchangeRate := er } ::
        buildRows (i + 1) tbs tss brs srs ers
  | _, _, _, _, _, _ => []

/-- The wrangling pipeline building `df`: `pd.DataFrame(graph_data['markets'])`
followed by the five `assign(... pd.to_numeric ...)` calls and
`reset_index()`.  A `pd.DataFrame` built from an empty list has no columns,
so the first column access `df.totalBorrows` raises `AttributeError`;
otherwise each of the five columns is coerced in the order of the `assign`
chain, the first failing coercion raising. -/
def wrangle (rows : List RawRow) : Except String (List Row) :=
  if rows.isEmpty then
    .error "AttributeError: DataFrame object has no attribute totalBorrows"
  else
    match coerceColumn RawRow.totalBorrows rows with
    | .error e => .error e
    | .ok tb =>
      match coerceColumn RawRow.totalSupply rows with
      | .error e => .error e
      | .ok ts =>
        match coerceColumn RawRow.borrowRate rows with
        | .error e => .error e
        | .ok br =>
          match coerceColumn RawRow.supplyRate rows with
          | .error e => .error e
          | .ok sr =>
            match coerceColumn RawRow.exchangeRate rows with
            | .error e => .error e
            | .ok er => .ok (buildRows 0 tb ts br sr er)

/-- The fully parsed form of a raw row at `reset_index()` position `i`:
every field is exactly the number its string denoted. -/
def parseRow (i : ℕ) (r : RawRow) : Row :=
  { index := i, borrowRate := r.borrowRate.val, supplyRate := r.supplyRate.val,
    totalBorrows := r.totalBorrows.val, totalSupply := r.totalSupply.val,
    exchangeRate := r.exchangeRate.val }

/-- A value held in a cadCAD state field.  The initial state stores floats,
but `s_exchange_rate` stores the string parameter, so the embedded state
value is a sum of the two. -/
inductive Val
  | num (q : ℚ)
  | str (s : String)
deriving DecidableEq

/-- A cadCAD state row: the `timestep` field maintained by the engine plus
the four model state variables of `initial_state`. -/
structure State where
  timestep : ℕ
  lender_APY : Val
  borrower_rate : Val
  utilization_rate : Val
  exchange_rate : Val
deriving DecidableEq

instance : Inhabited State :=
  ⟨⟨0, .num 0, .num 0, .num 0, .num 0⟩⟩

/-- The dictionary `initial_state` of src/main.py, extended with the
engine's `timestep = 0`. -/
def initial_state : State :=
  { timestep := 0, lender_APY := .num 0, borrower_rate := .num 0,
    utilization_rate := .num 0, exchange_rate := .num 0 }

/-- The system parameters as the engine delivers them to the model
functions: each single-element sweep list of `system_params` is unwrapped,
so `new_df` is `df_dict` (row index to row) and `exchange_rate` is the
string 'exchangeRate'. -/
structure Params where
  new_df : List Row
  exchange_rate : String
deriving DecidableEq

/-- The dictionary `system_params` built over a wrangled table `df`:
`{'new_df': [df_dict], 'exchange_rate': ['exchangeRate']}` after sweep
unwrapping. -/
def system_params (df : List Row) : Params :=
  { new_df := df, exchange_rate := "exchangeRate" }

/-- The dictionary returned by the policy function `p_rates`. -/
structure PolicyInput where
  lender_APY : Val
  borrower_rate : Val
  exchange_rate : Val
  utilization_rate : Val
deriving DecidableEq

/-- The policy function `p_rates`: reads the row of `params['new_df']` at
the previous state's `timestep`, copies its supply and borrow rates and the
`exchange_rate` parameter string, and computes the utilization rate.  The
division guarded by `except ZeroDivisionError` is modelled exactly: on a
zero denominator the guard yields 0, otherwise the quotient times 100. -/
def p_rates (params : Params) (substep : ℕ)
    (state_history : List (List State)) (previous_state : State) :
    PolicyInput :=
  let t := previous_state.timestep
  let ts_data := params.new_df.getD t default
  let lender_APY := ts_data.supplyRate
  let borrower_rate := ts_data.borrowRate
  let exchange_rate := params.exchange_rate
  let total_borrowed := ts_data.totalBorrows
  let TVL := ts_data.totalSupply
  let utilization_rate : ℚ :=
    if TVL = 0 then 0 else total_borrowed / TVL * 100
  { lender_APY := .num lender_APY
    borrower_rate := .num borrower_rate
    exchange_rate := .str exchange_rate
    utilization_rate := .num utilization_rate }

/-- State update function `s_lender_APY`. -/
def s_lender_APY (params : Params) (substep : ℕ)
    (state_history : List (List State)) (previous_state : State)
    (policy_input : PolicyInput) : String × Val :=
  ("lender_APY", policy_input.lender_APY)

/-- State update function `s_borrower_APY` (it updates `borrower_rate`). -/
def s_borrower_APY (params : Params) (substep : ℕ)
    (state_history : List (List State)) (previous_state : State)
    (policy_input : PolicyInput) : String × Val :=
  ("borrower_rate", policy_input.borrower_rate)

/-- State update function `s_utilization_rate`. -/
def s_utilization_rate (params : Params) (substep : ℕ)
    (state_history : List (List State)) (previous_state : State)
    (policy_input : PolicyInput) : String × Val :=
  ("utilization_rate", policy_input.utilization_rate)

/-- State update function `s_exchange_rate`. -/
def s_exchange_rate (params : Params) (substep : ℕ)
    (state_history : List (List State)) (previous_state : State)
    (policy_input : PolicyInput) : String × Val :=
  ("exchange_rate", policy_input.exchange_rate)

/-- One engine pass over the single partial state update block: run the
policy `p_rates` on the previous state, apply the four state update
functions to its output, and advance the engine-maintained `timestep`.
Every model function ignores `substep` and `state_history`, so the engine's
actual substep counter and accumulated history are passed as `1` and `[]`
without loss. -/
def step (params : Params) (prev : State) : State :=
  let policy_input := p_rates params 1 [] prev
  { timestep := prev.timestep + 1
    lender_APY := (s_lender_APY params 1 [] prev policy_input).2
    borrower_rate := (s_borrower_APY params 1 [] prev policy_input).2
    utilization_rate := (s_utilization_rate params 1 [] prev policy_input).2
    exchange_rate := (s_exchange_rate params 1 [] prev policy_input).2 }

/-- The engine's main loop after the initial state: `n` further passes,
collecting one state row per pass. -/
def runFrom (params : Params) : ℕ → State → List State
  | 0, _ => []
  | n + 1, s =>
      let s' := step params s
      s' :: runFrom params n s'

/-- The full result table of one run: the initial state (timestep 0)
followed by one row per configured iteration. -/
def runSim (params : Params) (nSteps : ℕ) : List State :=
  initial_state :: runFrom params nSteps initial_state

/-- The configuration entry `'T': range(len(df_dict))`. -/
def config_T (df : List Row) : List ℕ :=
  List.range df.length

/-- The executed simulation over a wrangled table `df`: the engine runs one
pass per element of `config_T df` (with `N = 1` Monte-Carlo run) and
returns the result rows in timestep order. -/
def simulate (df : List Row) : List State :=
  runSim (system_params df) (config_T df).length

/-- The outcome of `req.post` / `json.loads(r.content)['data']`: either the
request raised, or the body was not the expected JSON shape, or the
`markets` list was extracted. -/
inductive Response
  | netError (msg : String)
  | malformed (msg : String)
  | markets (rows : List RawRow)
deriving DecidableEq

/-- Extraction of `graph_data`: a network or parse failure propagates,
since there is no handler around the request or the parse. -/
def graph_data : Response → Except String (List RawRow)
  | .netError m => .error m
  | .malformed m => .error m
  | .markets rows => .ok rows

/-- The straight-line pipeline of the script from the HTTP response to the
simulation result: fetch, wrangle, simulate.  No stage has a handler, so
the first error aborts the whole run. -/
def runProgram (resp : Response) : Except String (List State) :=
  match graph_data resp with
  | .error e => .error e
  | .ok raw =>
    match wrangle raw with
    | .error e => .error e
    | .ok df => .ok (simulate df)

/-- An observable action of the live-chart loop. -/
inductive ChartEvent
  | addRow (s : State)
  | sleep (seconds : ℚ)
deriving DecidableEq

/-- The chart loop under `if run_simulation:`, namely
`for i in range(len(result)): chart.add_rows(result.iloc[i]); time.sleep(0.05)`,
recorded as the sequence of its observable actions. -/
def chartEvents (result : List State) : List ChartEvent :=
  (List.range result.length).flatMap
    (fun i => [ChartEvent.addRow (result.getD i default),
               ChartEvent.sleep (0.05 : ℚ)])

/-- Concrete market row used in witnesses and counterexamples. -/
def rowA : Row :=
  { index := 0, borrowRate := 3, supplyRate := 2, totalBorrows := 50,
    totalSupply := 200, exchangeRate := 7 }

/-- Concrete market row with an empty pool (`totalSupply = 0`). -/
def rowB : Row :=
  { index := 1, borrowRate := 4, supplyRate := 9, totalBorrows := 5,
    totalSupply := 0, exchangeRate := 11 }

/-- Concrete raw response row whose five fields all parse. -/
def rawGood : RawRow :=
  { borrowRate := .numStr 3, supplyRate := .numStr 2,
    totalBorrows := .numStr 50, totalSupply := .numStr 200,
    exchangeRate := .numStr 7 }

/-- Concrete raw response row whose `totalSupply` is non-numeric text. -/
def rawBad : RawRow :=
  { borrowRate := .numStr 3, supplyRate := .numStr 2,
    totalBorrows := .numStr 50, totalSupply := .nonNum "abc",
    exchangeRate := .numStr 7 }

/-- Concrete previous state, timestep 0, arbitrary rate values. -/
def stA : State :=
  { timestep := 0, lender_APY := .num 1, borrower_rate := .num 2,
    utilization_rate := .num 3, exchange_rate := .num 4 }

/-- Concrete previous state agreeing with `stA` only on the timestep. -/
def stB : State :=
  { timestep := 0, lender_APY := .num 9, borrower_rate := .num 8,
    utilization_rate := .num 7, exchange_rate := .str "x" }

end Cadcad

namespace Cadcad

lemma runFrom_length (params : Params) :
    ∀ (n : ℕ) (s : State), (runFrom params n s).length = n
  | 0, _ => rfl
  | n + 1, s => by simp [runFrom, runFrom_length params n]

lemma runFrom_getD (params : Params) :
    ∀ (n i : ℕ) (s : State), i < n →
      (runFrom params n s).getD i default = (step params)^[i + 1] s := by
  intro n
  induction n with
  | zero => intro i s h; omega
  | succ n ih =>
    intro i s h
    cases i with
    | zero => simp [runFrom]
    | succ i =>
      show (runFrom params (n + 1) s).getD (i + 1) default = _
      rw [show runFrom params (n + 1) s
            = step params s :: runFrom params n (step params s) from rfl]
      rw [List.getD_cons_succ, ih i (step params s) (by omega)]
      rw [Function.iterate_succ_apply (step params) (i + 1) s]

lemma iterate_step_timestep (params : Params) :
    ∀ (i : ℕ) (s : State), ((step params)^[i] s).timestep = s.timestep + i := by
  intro i
  induction i with
  | zero => intro s; simp
  | succ i ih =>
    intro s
    rw [Function.iterate_succ_apply' (step params) i s]
    show ((step params) ((step params)^[i] s)).timestep = _
    rw [show ∀ u, (step params u).timestep = u.timestep + 1 from fun _ => rfl, ih]
    omega

lemma simulate_getD_succ (df : List Row) (i : ℕ) (h : i < df.length) :
    (simulate df).getD (i + 1) default =
      step (system_params df) ((step (system_params df))^[i] initial_state) := by
  unfold simulate runSim config_T
  rw [List.getD_cons_succ]
  rw [runFrom_getD _ _ _ _ (by simpa using h)]
  rw [Function.iterate_succ_apply' (step (system_params df)) i initial_state]

lemma simulate_row (df : List Row) (i : ℕ) (h : i < df.length) :
    ((simulate df).getD (i + 1) default).lender_APY
        = Val.num ((df.getD i default).supplyRate) ∧
    ((simulate df).getD (i + 1) default).borrower_rate
        = Val.num ((df.getD i default).borrowRate) ∧
    ((simulate df).getD (i + 1) default).utilization_rate
        = Val.num (if (df.getD i default).totalSupply = 0 then 0
                   else (df.getD i default).totalBorrows
                          / (df.getD i default).totalSupply * 100) ∧
    ((simulate df).getD (i + 1) default).exchange_rate = Val.str "exchangeRate" := by
  have ht : ((step (system_params df))^[i] initial_state).timestep = i := by
    rw [iterate_step_timestep]
    simp [initial_state]
  have hrow : (system_params df).new_df.getD
      ((step (system_params df))^[i] initial_state).timestep default
        = df.getD i default := by
    rw [ht]
    rfl
  rw [simulate_getD_succ df i h]
  refine ⟨?_, ?_, ?_, rfl⟩
  · show Val.num (((system_params df).new_df.getD
        ((step (system_params df))^[i] initial_state).timestep default).supplyRate) = _
    rw [hrow]
  · show Val.num (((system_params df).new_df.getD
        ((step (system_params df))^[i] initial_state).timestep default).borrowRate) = _
    rw [hrow]
  · show Val.num (if ((system_params df).new_df.getD
          ((step (system_params df))^[i] initial_state).timestep default).totalSupply = 0
        then 0
        else ((system_params df).new_df.getD
            ((step (system_params df))^[i] initial_state).timestep default).totalBorrows
          / ((system_params df).new_df.getD
            ((step (system_params df))^[i] initial_state).timestep default).totalSupply
          * 100) = _
    rw [hrow]

lemma coerceColumn_ok_of_isNum (get : RawRow → RawVal) :
    ∀ rows : List RawRow, (∀ r ∈ rows, (get r).isNum) →
      coerceColumn get rows = .ok (rows.map fun r => (get r).val) := by
  intro rows
  induction rows with
  | nil => intro _; rfl
  | cons a rs ih =>
    intro hall
    have ha : (get a).isNum := hall a (by simp)
    have hrs := ih fun x hx => hall x (by simp [hx])
    cases hget : get a with
    | numStr q =>
      rw [coerceColumn, hget]
      dsimp only [to_numeric]
      rw [hrs]
      simp [hget, RawVal.val]
    | nonNum s =>
      rw [hget] at ha
      simp [RawVal.isNum] at ha

lemma coerceColumn_ok_isNum (get : RawRow → RawVal) :
    ∀ (rows : List RawRow) (l : List ℚ), coerceColumn get rows = .ok l →
      ∀ r ∈ rows, (get r).isNum := by
  intro rows
  induction rows with
  | nil => intro l _ r hr; simp at hr
  | cons a rs ih =>
    intro l hok r hr
    cases hget : to_numeric (get a) with
    | error e =>
      rw [coerceColumn, hget] at hok
      simp at hok
    | ok q =>
      rw [coerceColumn, hget] at hok
      cases hrs : coerceColumn get rs with
      | error e => rw [hrs] at hok; simp at hok
      | ok qs =>
        rcases List.mem_cons.mp hr with rfl | hmem
        · cases hv : get r with
          | numStr q => simp [RawVal.isNum, hv]
          | nonNum s => rw [hv] at hget; simp [to_numeric] at hget
        · exact ih qs hrs r hmem

lemma wrangle_ok_isNum (rows : List RawRow) (df : List Row)
    (hok : wrangle rows = .ok df) :
    ∀ r ∈ rows, r.borrowRate.isNum ∧ r.supplyRate.isNum ∧ r.totalBorrows.isNum ∧
      r.totalSupply.isNum ∧ r.exchangeRate.isNum := by
  intro r hr
  rw [wrangle] at hok
  by_cases hemp : rows.isEmpty
  · rw [if_pos hemp] at hok; simp at hok
  · rw [if_neg hemp] at hok
    cases h1 : coerceColumn RawRow.totalBorrows rows with
    | error e => rw [h1] at hok; simp at hok
    | ok tb =>
      rw [h1] at hok
      cases h2 : coerceColumn RawRow.totalSupply rows with
      | error e => rw [h2] at hok; simp at hok
      | ok ts =>
        rw [h2] at hok
        cases h3 : coerceColumn RawRow.borrowRate rows with
        | error e => rw [h3] at hok; simp at hok
        | ok br =>
          rw [h3] at hok
          cases h4 : coerceColumn RawRow.supplyRate rows with
          | error e => rw [h4] at hok; simp at hok
          | ok sr =>
            rw [h4] at hok
            cases h5 : coerceColumn RawRow.exchangeRate rows with
            | error e => rw [h5] at hok; simp at hok
            | ok er =>
              exact ⟨coerceColumn_ok_isNum _ rows br h3 r hr,
                     coerceColumn_ok_isNum _ rows sr h4 r hr,
                     coerceColumn_ok_isNum _ rows tb h1 r hr,
                     coerceColumn_ok_isNum _ rows ts h2 r hr,
                     coerceColumn_ok_isNum _ rows er h5 r hr⟩

lemma buildRows_map (rows : List RawRow) :
    ∀ i : ℕ,
      buildRows i (rows.map fun r => r.totalBorrows.val)
        (rows.map fun r => r.totalSupply.val)
        (rows.map fun r => r.borrowRate.val)
        (rows.map fun r => r.supplyRate.val)
        (rows.map fun r => r.exchangeRate.val)
        = (rows.enumFrom i).map fun p => parseRow p.1 p.2 := by
  induction rows with
  | nil => intro i; rfl
  | cons a rs ih =>
    intro i
    simp only [List.map_cons, List.enumFrom_cons, buildRows]
    exact congrArg _ (ih (i + 1))

lemma flatMap_range_succ {α : Type} (f : ℕ → List α) (n : ℕ) :
    (List.range (n + 1)).flatMap f = f 0 ++ (List.range n).flatMap (fun i => f (i + 1)) := by
  rw [List.range_succ_eq_map]
  simp only [List.flatMap_cons]
  rw [List.flatMap_map]

lemma chartEvents_eq (l : List State) :
    chartEvents l
      = (l.map fun r => [ChartEvent.addRow r, ChartEvent.sleep (0.05 : ℚ)]).flatten := by
  induction l with
  | nil => rfl
  | cons s rest ih =>
    show (List.range (s :: rest).length).flatMap
        (fun i => [ChartEvent.addRow ((s :: rest).getD i default),
                   ChartEvent.sleep (0.05 : ℚ)]) = _
    rw [List.length_cons, flatMap_range_succ]
    simp only [List.getD_cons_zero, List.getD_cons_succ]
    rw [List.map_cons, List.flatten_cons, ← ih]
    rfl

end Cadcad

namespace Cadcad

/-- C1 counterexample: the claim says the `exchange_rate` output field
equals the consumed row's `exchangeRate` field, but on the concrete
one-row table `[rowA]` (whose `exchangeRate` is 7) the state produced at
step 1 carries the string 'exchangeRate' instead. -/
theorem claim1_counterexample :
    ((simulate [rowA]).getD 1 default).exchange_rate
      ≠ Val.num rowA.exchangeRate := by
  decide

/-- C1 (amended): at every step `t ≥ 1`, the `lender_APY`,
`borrower_rate` and `utilization_rate` output fields equal the consumed
row's `supplyRate`, `borrowRate` and computed utilization, unchanged; the
`exchange_rate` field instead equals the constant parameter string
'exchangeRate', not the row's `exchangeRate` field. -/
theorem claim1_amended (df : List Row) (t : ℕ) (h1 : 1 ≤ t) (h2 : t ≤ df.length) :
    ((simulate df).getD t default).lender_APY
        = Val.num ((df.getD (t - 1) default).supplyRate) ∧
    ((simulate df).getD t default).borrower_rate
        = Val.num ((df.getD (t - 1) default).borrowRate) ∧
    ((simulate df).getD t default).utilization_rate
        = Val.num (if (df.getD (t - 1) default).totalSupply = 0 then 0
                   else (df.getD (t - 1) default).totalBorrows
                          / (df.getD (t - 1) default).totalSupply * 100) ∧
    ((simulate df).getD t default).exchange_rate = Val.str "exchangeRate" := by
  cases t with
  | zero => omega
  | succ i => exact simulate_row df i (by omega)

/-- Witness for the amended C1 at the concrete table `[rowA]`, step 1. -/
theorem claim1_amended_witness :
    (1 ≤ 1 ∧ 1 ≤ [rowA].length) ∧
    (((simulate [rowA]).getD 1 default).lender_APY
        = Val.num (([rowA].getD 0 default).supplyRate) ∧
     ((simulate [rowA]).getD 1 default).borrower_rate
        = Val.num (([rowA].getD 0 default).borrowRate) ∧
     ((simulate [rowA]).getD 1 default).utilization_rate
        = Val.num (if ([rowA].getD 0 default).totalSupply = 0 then 0
                   else ([rowA].getD 0 default).totalBorrows
                          / ([rowA].getD 0 default).totalSupply * 100) ∧
     ((simulate [rowA]).getD 1 default).exchange_rate = Val.str "exchangeRate") :=
  ⟨⟨le_refl 1, by decide⟩, claim1_amended [rowA] 1 (le_refl 1) (by decide)⟩

/-- C2: for every input row, the utilization rate produced for it equals
`totalBorrows / totalSupply * 100`, except that it equals 0 when the row's
`totalSupply` is 0. -/
theorem claim2_utilization_formula (df : List Row) (i : ℕ) (h : i < df.length) :
    ((df.getD i default).totalSupply = 0 →
        ((simulate df).getD (i + 1) default).utilization_rate = Val.num 0) ∧
    ((df.getD i default).totalSupply ≠ 0 →
        ((simulate df).getD (i + 1) default).utilization_rate
          = Val.num ((df.getD i default).totalBorrows
                       / (df.getD i default).totalSupply * 100)) := by
  have hu := (simulate_row df i h).2.2.1
  constructor
  · intro hz
    rw [hu, if_pos hz]
  · intro hz
    rw [hu, if_neg hz]

/-- Witness for C2 on the concrete table `[rowA, rowB]`: row 0 has
`totalSupply = 200` and yields the quotient formula, row 1 has
`totalSupply = 0` and yields 0. -/
theorem claim2_utilization_formula_witness :
    (([rowA, rowB].getD 1 default).totalSupply = 0 ∧
      ((simulate [rowA, rowB]).getD 2 default).utilization_rate = Val.num 0) ∧
    (([rowA, rowB].getD 0 default).totalSupply ≠ 0 ∧
      ((simulate [rowA, rowB]).getD 1 default).utilization_rate
        = Val.num (([rowA, rowB].getD 0 default).totalBorrows
                     / ([rowA, rowB].getD 0 default).totalSupply * 100)) :=
  ⟨⟨by decide, (claim2_utilization_formula [rowA, rowB] 1 (by decide)).1 (by decide)⟩,
   ⟨by decide, (claim2_utilization_formula [rowA, rowB] 0 (by decide)).2 (by decide)⟩⟩

/-- C3: the configured iteration range has exactly one element per input
row, and the simulation result is the initial state plus exactly one
state-update row per input row. -/
theorem claim3_step_count (df : List Row) :
    (config_T df).length = df.length ∧
    (simulate df).length = df.length + 1 := by
  constructor
  · simp [config_T]
  · simp [simulate, runSim, runFrom_length, config_T]

/-- C4 counterexample: the claim says the policy reads the row whose index
equals the step whose state it is producing; on the concrete table
`[rowA, rowB]` the state produced at step 1 carries `rowA`'s supply rate
(2), not `rowB`'s (9), so the row read at step 1 is row 0, not row 1. -/
theorem claim4_counterexample :
    ((simulate [rowA, rowB]).getD 1 default).lender_APY
      ≠ Val.num (([rowA, rowB].getD 1 default).supplyRate) := by
  decide

/-- C4 (amended): at the step producing the timestep-`t` state, the policy
reads the input row whose index is the previous state's timestep `t - 1`,
one less than the step whose state it is producing. -/
theorem claim4_amended (df : List Row) (t : ℕ) (h1 : 1 ≤ t) (h2 : t ≤ df.length) :
    ((simulate df).getD t default).lender_APY
        = Val.num ((df.getD (t - 1) default).supplyRate) ∧
    ((simulate df).getD t default).borrower_rate
        = Val.num ((df.getD (t - 1) default).borrowRate) := by
  cases t with
  | zero => omega
  | succ i =>
    obtain ⟨ha, hb, _, _⟩ := simulate_row df i (by omega)
    exact ⟨ha, hb⟩

/-- Witness for the amended C4 at the concrete table `[rowA, rowB]`,
step 2, which reads row 1. -/
theorem claim4_amended_witness :
    (1 ≤ 2 ∧ 2 ≤ [rowA, rowB].length) ∧
    (((simulate [rowA, rowB]).getD 2 default).lender_APY
        = Val.num (([rowA, rowB].getD 1 default).supplyRate) ∧
     ((simulate [rowA, rowB]).getD 2 default).borrower_rate
        = Val.num (([rowA, rowB].getD 1 default).borrowRate)) :=
  ⟨⟨by decide, by decide⟩, claim4_amended [rowA, rowB] 2 (by decide) (by decide)⟩

/-- C5: the zero-denominator guard inside the utilization computation is
the only recovery in the pipeline: a network error, a malformed response,
a coercion error, or the empty dataset each abort the run with the
originating error unchanged, while a zero `totalSupply` is absorbed into a
0 utilization rate and the run continues. -/
theorem claim5_only_guard :
    (∀ m, runProgram (.netError m) = .error m) ∧
    (∀ m, runProgram (.malformed m) = .error m) ∧
    (runProgram (.markets []) =
      .error "AttributeError: DataFrame object has no attribute totalBorrows") ∧
    (∀ rows e, wrangle rows = .error e → runProgram (.markets rows) = .error e) ∧
    (∀ rows df, wrangle rows = .ok df → runProgram (.markets rows) = .ok (simulate df)) ∧
    (∀ df i, i < df.length → (df.getD i default).totalSupply = 0 →
        ((simulate df).getD (i + 1) default).utilization_rate = Val.num 0) := by
  refine ⟨fun m => rfl, fun m => rfl, rfl, ?_, ?_, ?_⟩
  · intro rows e h
    show (match wrangle rows with
          | .error e => Except.error e
          | .ok df => Except.ok (simulate df)) = _
    rw [h]
  · intro rows df h
    show (match wrangle rows with
          | .error e => Except.error e
          | .ok df => Except.ok (simulate df)) = _
    rw [h]
  · intro df i h hz
    rw [(simulate_row df i h).2.2.1, if_pos hz]

/-- Witness for C5: a concrete network error, the concrete coercion error
of `rawBad`, the concrete success of `rawGood`, and a concrete zero-supply
row absorbed into a 0 utilization rate. -/
theorem claim5_only_guard_witness :
    runProgram (.netError "connection refused") = .error "connection refused" ∧
    (wrangle [rawBad] = .error "Unable to parse string abc" ∧
      runProgram (.markets [rawBad]) = .error "Unable to parse string abc") ∧
    (wrangle [rawGood] = .ok [rowA] ∧
      runProgram (.markets [rawGood]) = .ok (simulate [rowA])) ∧
    (([rowB].getD 0 default).totalSupply = 0 ∧
      ((simulate [rowB]).getD 1 default).utilization_rate = Val.num 0) :=
  ⟨claim5_only_guard.1 "connection refused",
   ⟨rfl, claim5_only_guard.2.2.2.1 [rawBad] _ rfl⟩,
   ⟨rfl, claim5_only_guard.2.2.2.2.1 [rawGood] [rowA] rfl⟩,
   ⟨by decide, claim5_only_guard.2.2.2.2.2 [rowB] 0 (by decide) (by decide)⟩⟩

/-- C6: the reshape step coerces the five columns `totalBorrows`,
`totalSupply`, `borrowRate`, `supplyRate`, `exchangeRate`; when every
value parses, the result holds exactly the parsed numbers (nothing is
silently substituted), and when any value in those columns is non-numeric,
the coercion raises an uncaught conversion error. -/
theorem claim6_coercion :
    (∀ rows : List RawRow, rows ≠ [] →
        (∀ r ∈ rows, r.borrowRate.isNum ∧ r.supplyRate.isNum ∧
          r.totalBorrows.isNum ∧ r.totalSupply.isNum ∧ r.exchangeRate.isNum) →
        wrangle rows = .ok ((rows.enumFrom 0).map fun p => parseRow p.1 p.2)) ∧
    (∀ rows : List RawRow,
        (∃ r ∈ rows, ¬(r.borrowRate.isNum ∧ r.supplyRate.isNum ∧
          r.totalBorrows.isNum ∧ r.totalSupply.isNum ∧ r.exchangeRate.isNum)) →
        ∃ e, wrangle rows = .error e) := by
  constructor
  · intro rows hne hall
    have hemp : ¬(rows.isEmpty = true) := by
      cases rows with
      | nil => exact absurd rfl hne
      | cons a rs => simp
    have h1 := coerceColumn_ok_of_isNum RawRow.totalBorrows rows
      fun r hr => (hall r hr).2.2.1
    have h2 := coerceColumn_ok_of_isNum RawRow.totalSupply rows
      fun r hr => (hall r hr).2.2.2.1
    have h3 := coerceColumn_ok_of_isNum RawRow.borrowRate rows
      fun r hr => (hall r hr).1
    have h4 := coerceColumn_ok_of_isNum RawRow.supplyRate rows
      fun r hr => (hall r hr).2.1
    have h5 := coerceColumn_ok_of_isNum RawRow.exchangeRate rows
      fun r hr => (hall r hr).2.2.2.2
    rw [wrangle, if_neg hemp, h1, h2, h3, h4, h5]
    dsimp only
    rw [buildRows_map rows 0]
  · intro rows hbad
    obtain ⟨r, hmem, hr⟩ := hbad
    cases hw : wrangle rows with
    | error e => exact ⟨e, rfl⟩
    | ok df => exact absurd (wrangle_ok_isNum rows df hw r hmem) hr

/-- Witness for C6: the all-numeric row `rawGood` wrangles to exactly its
parsed values, and the row `rawBad` with non-numeric `totalSupply` makes
the coercion raise. -/
theorem claim6_coercion_witness :
    ([rawGood] ≠ [] ∧
      wrangle [rawGood] = .ok (([rawGood].enumFrom 0).map fun p => parseRow p.1 p.2)) ∧
    ((∃ r ∈ [rawBad], ¬(r.borrowRate.isNum ∧ r.supplyRate.isNum ∧
        r.totalBorrows.isNum ∧ r.totalSupply.isNum ∧ r.exchangeRate.isNum)) ∧
      ∃ e, wrangle [rawBad] = .error e) :=
  ⟨⟨by decide, claim6_coercion.1 [rawGood] (by decide) (by decide)⟩,
   ⟨by decide, claim6_coercion.2 [rawBad] (by decide)⟩⟩

/-- C7: the chart loop emits, for each row of the simulation result table
in increasing row order, exactly one append of that row followed by exactly
one fixed 0.05-second sleep. -/
theorem claim7_chart_loop (df : List Row) :
    chartEvents (simulate df)
      = ((simulate df).map
          fun r => [ChartEvent.addRow r, ChartEvent.sleep (0.05 : ℚ)]).flatten :=
  chartEvents_eq (simulate df)

/-- C8: at every step `t ≥ 1` the `exchange_rate` state field equals the
string 'exchangeRate' taken from the system-parameter dictionary, whatever
the fetched market data. -/
theorem claim8_exchange_rate_constant (df : List Row) (t : ℕ)
    (h1 : 1 ≤ t) (h2 : t ≤ df.length) :
    ((simulate df).getD t default).exchange_rate
        = Val.str (system_params df).exchange_rate ∧
    (system_params df).exchange_rate = "exchangeRate" := by
  cases t with
  | zero => omega
  | succ i => exact ⟨(simulate_row df i (by omega)).2.2.2, rfl⟩

/-- Witness for C8 at the concrete table `[rowA]`, step 1. -/
theorem claim8_exchange_rate_constant_witness :
    (1 ≤ 1 ∧ 1 ≤ [rowA].length) ∧
    (((simulate [rowA]).getD 1 default).exchange_rate
        = Val.str (system_params [rowA]).exchange_rate ∧
     (system_params [rowA]).exchange_rate = "exchangeRate") :=
  ⟨⟨le_refl 1, by decide⟩, claim8_exchange_rate_constant [rowA] 1 (le_refl 1) (by decide)⟩

/-- C9: for any two previous states agreeing on the `timestep` field, the
policy function and all four state update functions produce identical new
values, whatever the substep, the state history, and the previous values of
the four rate fields. -/
theorem claim9_timestep_determines (params : Params) (sub1 sub2 : ℕ)
    (h1 h2 : List (List State)) (s1 s2 : State)
    (h : s1.timestep = s2.timestep) :
    p_rates params sub1 h1 s1 = p_rates params sub2 h2 s2 ∧
    s_lender_APY params sub1 h1 s1 (p_rates params sub1 h1 s1)
      = s_lender_APY params sub2 h2 s2 (p_rates params sub2 h2 s2) ∧
    s_borrower_APY params sub1 h1 s1 (p_rates params sub1 h1 s1)
      = s_borrower_APY params sub2 h2 s2 (p_rates params sub2 h2 s2) ∧
    s_utilization_rate params sub1 h1 s1 (p_rates params sub1 h1 s1)
      = s_utilization_rate params sub2 h2 s2 (p_rates params sub2 h2 s2) ∧
    s_exchange_rate params sub1 h1 s1 (p_rates params sub1 h1 s1)
      = s_exchange_rate params sub2 h2 s2 (p_rates params sub2 h2 s2) := by
  have hp : p_rates params sub1 h1 s1 = p_rates params sub2 h2 s2 := by
    unfold p_rates
    rw [h]
  exact ⟨hp, by unfold s_lender_APY; rw [hp], by unfold s_borrower_APY; rw [hp],
         by unfold s_utilization_rate; rw [hp], by unfold s_exchange_rate; rw [hp]⟩

/-- Witness for C9 on the concrete states `stA` and `stB`, which share the
timestep 0 but none of the four rate values, with different substeps and
histories. -/
theorem claim9_timestep_determines_witness :
    stA.timestep = stB.timestep ∧
    (p_rates (system_params [rowA]) 1 [] stA
        = p_rates (system_params [rowA]) 2 [[initial_state]] stB ∧
     s_lender_APY (system_params [rowA]) 1 [] stA
          (p_rates (system_params [rowA]) 1 [] stA)
        = s_lender_APY (system_params [rowA]) 2 [[initial_state]] stB
            (p_rates (system_params [rowA]) 2 [[initial_state]] stB) ∧
     s_borrower_APY (system_params [rowA]) 1 [] stA
          (p_rates (system_params [rowA]) 1 [] stA)
        = s_borrower_APY (system_params [rowA]) 2 [[initial_state]] stB
            (p_rates (system_params [rowA]) 2 [[initial_state]] stB) ∧
     s_utilization_rate (system_params [rowA]) 1 [] stA
          (p_rates (system_params [rowA]) 1 [] stA)
        = s_utilization_rate (system_params [rowA]) 2 [[initial_state]] stB
            (p_rates (system_params [rowA]) 2 [[initial_state]] stB) ∧
     s_exchange_rate (system_params [rowA]) 1 [] stA
          (p_rates (system_params [rowA]) 1 [] stA)
        = s_exchange_rate (system_params [rowA]) 2 [[initial_state]] stB
            (p_rates (system_params [rowA]) 2 [[initial_state]] stB)) :=
  ⟨rfl, claim9_timestep_determines (system_params [rowA]) 1 2 [] [[initial_state]]
          stA stB rfl⟩

/-- C10: whatever the input table, the first result row is the initial
state: timestep 0 with all four rate fields equal to 0.0, a row built from
`initial_state` and not from any input row. -/
theorem claim10_initial_row (df : List Row) :
    (simulate df).head? = some initial_state ∧
    initial_state.timestep = 0 ∧
    initial_state.lender_APY = Val.num 0 ∧
    initial_state.borrower_rate = Val.num 0 ∧
    initial_state.utilization_rate = Val.num 0 ∧
    initial_state.exchange_rate = Val.num 0 :=
  ⟨rfl, rfl, rfl, rfl, rfl, rfl⟩

end Cadcad
